import Mathlib

/-!
Verification development for the connection-orchestration core of a QUIC
implementation (crate qconnection, file connection.rs). The data model and
operations below are a shallow embedding of RawConnection and its methods:
receive routing per packet space, the lazily populated path map, key
invalidation on handshake completion, and the connection-frame dispatch
loop. External containers that live in sibling crates (key containers,
connection-state cell, flow controller) are modelled from the written
design where noted.
-/

set_option autoImplicit false

namespace GmQuic

/-- Modelled from the spec: qbase streamid Role (crate not included in the
sources); a connection endpoint is either a client or a server. -/
inductive Role where
  | Client
  | Server
deriving DecidableEq

def Role.is_client : Role → Bool
  | .Client => true
  | .Server => false

def Role.is_server : Role → Bool
  | .Client => false
  | .Server => true

/-- Modelled from the spec: the key container (qbase ArcKeys, crate not
included in the sources) holds a key pair in one of the states Pending,
Ready, Invalid; the transition to Invalid is one way and calling it again
is a no-op. -/
inductive KeyState where
  | Pending
  | Ready
  | Invalid
deriving DecidableEq

/-- Modelled from the spec: ArcKeys.invalid makes the container unusable;
repeated calls are a no-op. -/
def KeyState.invalid (_k : KeyState) : KeyState := KeyState.Invalid

/-- Modelled from the spec: the connection state machine of the state
module (state.rs not included in the sources) with states Active and
Draining; set_state stores the given state. -/
inductive ConnectionState where
  | Active
  | Draining
deriving DecidableEq

/-- Modelled from the spec: qbase error kinds used by this core; only
ProtocolViolation is produced here. -/
inductive ErrorKind where
  | ProtocolViolation
deriving DecidableEq

/-- Modelled from the spec: a qbase transport error with its kind and a
reason string; new_with_default_fty builds one with the default frame
type. -/
structure Error where
  kind : ErrorKind
  reason : String
deriving DecidableEq

def Error.new_with_default_fty (kind : ErrorKind) (reason : String) : Error :=
  { kind := kind, reason := reason }

/-- Raw packets of the four spaces are opaque payloads here. -/
abbrev InitialPacket := Nat

abbrev HandshakePacket := Nat

abbrev ZeroRttPacket := Nat

abbrev OneRttPacket := Nat

/-- Pathway (local and remote address pair) as an opaque key. -/
abbrev Pathway := Nat

/-- A path handle: the id models allocation identity of the Arc, the other
fields are what ArcPath.new is given (socket handle, timer granularity in
milliseconds, the shared ack and loss observers). -/
structure ArcPath where
  id : Nat
  usc : Nat
  timer_granularity : Nat
  ack_observer : Nat
  loss_observer : Nat
deriving DecidableEq

def ArcPath.new (usc : Nat) (timer_granularity : Nat) (ack_observer : Nat)
    (loss_observer : Nat) (id : Nat) : ArcPath :=
  { id := id, usc := usc, timer_granularity := timer_granularity,
    ack_observer := ack_observer, loss_observer := loss_observer }

/-- An unbounded mpsc sender half: sending appends to items unless the
receiver side is gone (closed), in which case send reports failure. -/
structure PacketQueue (T : Type) where
  closed : Bool
  items : List (T × ArcPath)
deriving DecidableEq

def PacketQueue.send {T : Type} (q : PacketQueue T) (x : T × ArcPath) :
    PacketQueue T × Bool :=
  if q.closed then (q, false) else ({ q with items := q.items ++ [x] }, true)

/-- The optional receive queue of a discardable space: None means the
space was discarded and later packets are silently dropped. -/
abbrev RxPacketQueue (T : Type) := Option (PacketQueue T)

/-- The connection core. Fields not consulted by any verified operation
(per-space senders and observers kept elsewhere) are reduced to opaque
handles; the flow controller is modelled by its permitted send budget. -/
structure RawConnection where
  pathes : List (Pathway × ArcPath)
  nextPathId : Nat
  init_pkt_queue : RxPacketQueue InitialPacket
  hs_pkt_queue : RxPacketQueue HandshakePacket
  zero_rtt_pkt_queue : RxPacketQueue ZeroRttPacket
  one_rtt_pkt_queue : PacketQueue OneRttPacket
  initial_keys : KeyState
  handshake_keys : KeyState
  zero_rtt_keys : KeyState
  ack_observer : Nat
  loss_observer : Nat
  spin : Bool
  state : ConnectionState
  flow_budget : Nat
deriving DecidableEq

/-- Lookup in the path map (HashMap keyed by Pathway). -/
def findPath (pw : Pathway) : List (Pathway × ArcPath) → Option ArcPath
  | [] => none
  | e :: rest => if e.1 = pw then some e.2 else findPath pw rest

/-- get_path: entry(pathway).or_insert_with(ArcPath.new ...) — return the
cached path, or build one bound to the socket and the shared observers and
insert it. A fresh allocation id models the new Arc instance. -/
def RawConnection.get_path (c : RawConnection) (pw : Pathway) (usc : Nat) :
    ArcPath × RawConnection :=
  match findPath pw c.pathes with
  | some p => (p, c)
  | none =>
    let p := ArcPath.new usc 100 c.ack_observer c.loss_observer c.nextPathId
    (p, { c with pathes := c.pathes ++ [(pw, p)], nextPathId := c.nextPathId + 1 })

/-- recv_init_pkt_via: if the Initial queue is present, resolve the path
and send (pkt, path) with the send result discarded; otherwise do
nothing. -/
def RawConnection.recv_init_pkt_via (c : RawConnection) (pkt : InitialPacket)
    (usc : Nat) (pw : Pathway) : RawConnection :=
  match c.init_pkt_queue with
  | none => c
  | some q =>
    let pc := c.get_path pw usc
    { pc.2 with init_pkt_queue := some (q.send (pkt, pc.1)).1 }

/-- recv_hs_pkt_via: same shape as the Initial path, on the Handshake
queue. -/
def RawConnection.recv_hs_pkt_via (c : RawConnection) (pkt : HandshakePacket)
    (usc : Nat) (pw : Pathway) : RawConnection :=
  match c.hs_pkt_queue with
  | none => c
  | some q =>
    let pc := c.get_path pw usc
    { pc.2 with hs_pkt_queue := some (q.send (pkt, pc.1)).1 }

/-- recv_0rtt_pkt_via: same shape as the Initial path, on the 0-RTT
queue. -/
def RawConnection.recv_0rtt_pkt_via (c : RawConnection) (pkt : ZeroRttPacket)
    (usc : Nat) (pw : Pathway) : RawConnection :=
  match c.zero_rtt_pkt_queue with
  | none => c
  | some q =>
    let pc := c.get_path pw usc
    { pc.2 with zero_rtt_pkt_queue := some (q.send (pkt, pc.1)).1 }

/-- recv_1rtt_pkt_via: the 1-RTT queue is not optional; the send result is
checked with expect, so a failed send is a panic, modelled as none. -/
def RawConnection.recv_1rtt_pkt_via (c : RawConnection) (pkt : OneRttPacket)
    (usc : Nat) (pw : Pathway) : Option RawConnection :=
  let pc := c.get_path pw usc
  let r := pc.2.one_rtt_pkt_queue.send (pkt, pc.1)
  if r.2 then some { pc.2 with one_rtt_pkt_queue := r.1 } else none

def RawConnection.invalid_init_keys (c : RawConnection) : RawConnection :=
  { c with initial_keys := c.initial_keys.invalid }

def RawConnection.invalid_hs_keys (c : RawConnection) : RawConnection :=
  { c with handshake_keys := c.handshake_keys.invalid }

def RawConnection.invalid_0rtt_keys (c : RawConnection) : RawConnection :=
  { c with zero_rtt_keys := c.zero_rtt_keys.invalid }

/-- handshake_done: invalidate the Initial, Handshake and 0-RTT keys. The
source leaves the receive queues untouched (its TODO: Drop
RxPacketQueue). -/
def RawConnection.handshake_done (c : RawConnection) : RawConnection :=
  ((c.invalid_init_keys).invalid_hs_keys).invalid_0rtt_keys

/-- The connection-frame variants handled by the dispatch loop; payloads
that the loop ignores are omitted. -/
inductive ConnFrame where
  | Close (err : Error)
  | NewToken
  | MaxData (max_data : Nat)
  | NewConnectionId
  | RetireConnectionId
  | HandshakeDone
  | DataBlocked
deriving DecidableEq

/-- Modelled from the spec: the flow controller (controller module, not
included in the sources) exposes permit, which grants additional send
budget: permit n increases the permitted budget by exactly n. -/
def FlowController.permit (budget : Nat) (n : Nat) : Nat := budget + n

def hsDoneErrMsg : String := "client should not send HandshakeDoneFrame"

/-- One iteration body of the connection-frame dispatch loop: the state
actually reached and the Result the match arm computed. none models the
todo panic of the unimplemented arms. -/
def dispatch_frame (role : Role) (c : RawConnection) (f : ConnFrame) :
    Option (RawConnection × Except Error Unit) :=
  match f with
  | .Close _ => some ({ c with state := ConnectionState.Draining }, Except.ok ())
  | .NewToken => none
  | .MaxData n =>
    some ({ c with flow_budget := FlowController.permit c.flow_budget n }, Except.ok ())
  | .NewConnectionId => none
  | .RetireConnectionId => none
  | .HandshakeDone =>
    if role.is_client then
      some (c.handshake_done, Except.ok ())
    else
      some (c, Except.error (Error.new_with_default_fty ErrorKind.ProtocolViolation hsDoneErrMsg))
  | .DataBlocked => some (c, Except.ok ())

/-- The dispatch loop over a finite prefix of the frame queue. Faithful to
the source: the Result of each arm is bound to an unused variable and the
loop continues with the next frame regardless. -/
def dispatch_loop (role : Role) (c : RawConnection) :
    List ConnFrame → Option RawConnection
  | [] => some c
  | f :: fs =>
    match dispatch_frame role c f with
    | none => none
    | some (c1, _result) => dispatch_loop role c1 fs

/-- The connection as built by new: empty path map, all four queues
present and live, all keys pending, state Active, zero flow budget. -/
def new (_role : Role) : RawConnection :=
  { pathes := []
    nextPathId := 0
    init_pkt_queue := some { closed := false, items := [] }
    hs_pkt_queue := some { closed := false, items := [] }
    zero_rtt_pkt_queue := some { closed := false, items := [] }
    one_rtt_pkt_queue := { closed := false, items := [] }
    initial_keys := KeyState.Pending
    handshake_keys := KeyState.Pending
    zero_rtt_keys := KeyState.Pending
    ack_observer := 0
    loss_observer := 0
    spin := false
    state := ConnectionState.Active
    flow_budget := 0 }

/-! Helper lemmas about the path map and get_path. -/

theorem findPath_append_self (pw : Pathway) (l : List (Pathway × ArcPath))
    (h : findPath pw l = none) (p : ArcPath) :
    findPath pw (l ++ [(pw, p)]) = some p := by
  induction l with
  | nil => simp [findPath]
  | cons e rest ih =>
    by_cases he : e.1 = pw
    · simp [findPath, he] at h
    · simp only [findPath, he, if_false, List.cons_append] at h ⊢
      exact ih h

theorem findPath_mem (pw : Pathway) (l : List (Pathway × ArcPath)) (p : ArcPath)
    (h : findPath pw l = some p) : (pw, p) ∈ l := by
  induction l with
  | nil => simp [findPath] at h
  | cons e rest ih =>
    by_cases he : e.1 = pw
    · simp only [findPath, he, if_true, Option.some.injEq] at h
      obtain ⟨a, b⟩ := e
      simp only at he
      subst he h
      exact List.mem_cons_self _ _
    · simp only [findPath, he, if_false] at h
      exact List.mem_cons_of_mem _ (ih h)

theorem get_path_found (c : RawConnection) (pw : Pathway) (usc : Nat) :
    findPath pw ((c.get_path pw usc).2).pathes = some ((c.get_path pw usc).1) := by
  unfold RawConnection.get_path
  cases h : findPath pw c.pathes with
  | some p => simp [h]
  | none => simpa [h] using findPath_append_self pw c.pathes h _

theorem get_path_preserves_fields (c : RawConnection) (pw : Pathway) (usc : Nat) :
    ((c.get_path pw usc).2.init_pkt_queue = c.init_pkt_queue) ∧
    ((c.get_path pw usc).2.hs_pkt_queue = c.hs_pkt_queue) ∧
    ((c.get_path pw usc).2.zero_rtt_pkt_queue = c.zero_rtt_pkt_queue) ∧
    ((c.get_path pw usc).2.one_rtt_pkt_queue = c.one_rtt_pkt_queue) ∧
    ((c.get_path pw usc).2.state = c.state) := by
  unfold RawConnection.get_path
  cases h : findPath pw c.pathes <;> simp [h]

theorem get_path_state_override (c : RawConnection) (s : ConnectionState)
    (pw : Pathway) (usc : Nat) :
    ({ c with state := s } : RawConnection).get_path pw usc =
      ((c.get_path pw usc).1, { (c.get_path pw usc).2 with state := s }) := by
  unfold RawConnection.get_path
  cases h : findPath pw c.pathes <;> simp [h]

/-- Claim C1 (code divergence): after handshake_done the Initial,
Handshake and 0-RTT keys are Invalid, yet the three receive queues are
still Some — the source invalidates the keys but leaves the queues in
place, so the queues are not None exactly when the keys are
invalidated. -/
theorem handshake_done_keys_invalid_queues_still_present :
    ((new Role.Client).handshake_done).initial_keys = KeyState.Invalid ∧
    ((new Role.Client).handshake_done).handshake_keys = KeyState.Invalid ∧
    ((new Role.Client).handshake_done).zero_rtt_keys = KeyState.Invalid ∧
    ((new Role.Client).handshake_done).init_pkt_queue.isSome = true ∧
    ((new Role.Client).handshake_done).hs_pkt_queue.isSome = true ∧
    ((new Role.Client).handshake_done).zero_rtt_pkt_queue.isSome = true := by
  exact ⟨rfl, rfl, rfl, rfl, rfl, rfl⟩

/-- Claim C2: when a discardable space has lost its queue (the field is
None), the corresponding receive call leaves the connection completely
unchanged: no error, nothing enqueued, no path created, hence no
connection-frame, space-frame or datagram output downstream. Since the
state is returned as is, every subsequent call behaves the same. -/
theorem recv_queue_absent_silent_drop (c : RawConnection) (pkt usc pw : Nat) :
    (c.init_pkt_queue = none → c.recv_init_pkt_via pkt usc pw = c) ∧
    (c.hs_pkt_queue = none → c.recv_hs_pkt_via pkt usc pw = c) ∧
    (c.zero_rtt_pkt_queue = none → c.recv_0rtt_pkt_via pkt usc pw = c) := by
  refine ⟨fun h => ?_, fun h => ?_, fun h => ?_⟩
  · simp [RawConnection.recv_init_pkt_via, h]
  · simp [RawConnection.recv_hs_pkt_via, h]
  · simp [RawConnection.recv_0rtt_pkt_via, h]

def cNoQueues : RawConnection :=
  { new Role.Client with
    init_pkt_queue := none, hs_pkt_queue := none, zero_rtt_pkt_queue := none }

/-- Witness for C2 at a concrete connection whose three discardable
queues are absent. -/
theorem recv_queue_absent_silent_drop_witness :
    cNoQueues.init_pkt_queue = none ∧
    cNoQueues.recv_init_pkt_via 1 0 2 = cNoQueues ∧
    cNoQueues.recv_hs_pkt_via 1 0 2 = cNoQueues ∧
    cNoQueues.recv_0rtt_pkt_via 1 0 2 = cNoQueues :=
  ⟨rfl, (recv_queue_absent_silent_drop cNoQueues 1 0 2).1 rfl,
    (recv_queue_absent_silent_drop cNoQueues 1 0 2).2.1 rfl,
    (recv_queue_absent_silent_drop cNoQueues 1 0 2).2.2 rfl⟩

/-- Claim C3 (code divergence): the dispatch loop computes an Err for a
HandshakeDone frame at a server, but binds it to an unused variable and
keeps processing: after [HandshakeDone, MaxData 5] the budget grew by 5
and the state is still Active — the error never left the loop and no
closing sequence started. -/
theorem conn_frame_error_swallowed_loop_continues :
    (dispatch_frame Role.Server (new Role.Server) ConnFrame.HandshakeDone =
      some (new Role.Server,
        Except.error
          (Error.new_with_default_fty ErrorKind.ProtocolViolation hsDoneErrMsg))) ∧
    (dispatch_loop Role.Server (new Role.Server)
        [ConnFrame.HandshakeDone, ConnFrame.MaxData 5] =
      some { new Role.Server with flow_budget := 5 }) ∧
    ({ new Role.Server with flow_budget := 5 } : RawConnection).state =
      ConnectionState.Active :=
  ⟨rfl, rfl, rfl⟩

/-- Claim C4: a HandshakeDone connection-frame at a client invalidates
the Initial, Handshake and 0-RTT keys idempotently and succeeds; at a
server it yields a ProtocolViolation error and leaves the connection,
in particular its state, untouched. -/
theorem handshake_done_frame_by_role (c : RawConnection) :
    (dispatch_frame Role.Client c ConnFrame.HandshakeDone =
      some (c.handshake_done, Except.ok ())) ∧
    ((c.handshake_done).initial_keys = KeyState.Invalid) ∧
    ((c.handshake_done).handshake_keys = KeyState.Invalid) ∧
    ((c.handshake_done).zero_rtt_keys = KeyState.Invalid) ∧
    ((c.handshake_done).handshake_done = c.handshake_done) ∧
    (dispatch_frame Role.Server c ConnFrame.HandshakeDone =
      some (c, Except.error
        (Error.new_with_default_fty ErrorKind.ProtocolViolation hsDoneErrMsg))) ∧
    ((dispatch_frame Role.Server c ConnFrame.HandshakeDone).map
      (fun r => r.1.state) = some c.state) :=
  ⟨rfl, rfl, rfl, rfl, rfl, rfl, rfl⟩

/-- Claim C9: a MaxData frame calls permit with exactly the carried
amount; the budget grows by exactly that amount, never decreases on this
path, the arm returns Ok and nothing else in the connection changes. -/
theorem max_data_permits_exactly (role : Role) (c : RawConnection) (n : Nat) :
    (dispatch_frame role c (ConnFrame.MaxData n) =
      some ({ c with flow_budget := FlowController.permit c.flow_budget n },
        Except.ok ())) ∧
    (FlowController.permit c.flow_budget n = c.flow_budget + n) ∧
    (c.flow_budget ≤ FlowController.permit c.flow_budget n) :=
  ⟨rfl, rfl, Nat.le_add_right _ _⟩

/-- Claim C5: the 1-RTT queue is a plain field, never optional, and
recv_1rtt_pkt_via never silently drops: while the consumer is alive the
packet is enqueued together with its resolved path, and if the send ever
fails the call is a panic (modelled none), not a drop. -/
theorem recv_1rtt_never_silent_drop (c : RawConnection) (pkt usc pw : Nat) :
    (c.one_rtt_pkt_queue.closed = false →
      c.recv_1rtt_pkt_via pkt usc pw =
        some { (c.get_path pw usc).2 with
          one_rtt_pkt_queue :=
            { closed := false,
              items := c.one_rtt_pkt_queue.items ++ [(pkt, (c.get_path pw usc).1)] } }) ∧
    (c.one_rtt_pkt_queue.closed = true →
      c.recv_1rtt_pkt_via pkt usc pw = none) := by
  have hq := (get_path_preserves_fields c pw usc).2.2.2.1
  constructor
  · intro h
    simp [RawConnection.recv_1rtt_pkt_via, PacketQueue.send, hq, h]
  · intro h
    simp [RawConnection.recv_1rtt_pkt_via, PacketQueue.send, hq, h]

/-- Witness for C5 on a fresh connection with a live consumer. -/
theorem recv_1rtt_never_silent_drop_witness :
    (new Role.Client).recv_1rtt_pkt_via 3 0 7 =
      some { ((new Role.Client).get_path 7 0).2 with
        one_rtt_pkt_queue :=
          { closed := false, items := [(3, ((new Role.Client).get_path 7 0).1)] } } :=
  (recv_1rtt_never_silent_drop (new Role.Client) 3 0 7).1 rfl

theorem dispatch_frame_preserves_draining (role : Role) (c : RawConnection)
    (f : ConnFrame) (c1 : RawConnection) (r : Except Error Unit)
    (hs : c.state = ConnectionState.Draining)
    (hd : dispatch_frame role c f = some (c1, r)) :
    c1.state = ConnectionState.Draining := by
  cases f with
  | Close e =>
    simp only [dispatch_frame, Option.some.injEq, Prod.mk.injEq] at hd
    rw [← hd.1]
  | NewToken => simp [dispatch_frame] at hd
  | MaxData n =>
    simp only [dispatch_frame, Option.some.injEq, Prod.mk.injEq] at hd
    rw [← hd.1]
    exact hs
  | NewConnectionId => simp [dispatch_frame] at hd
  | RetireConnectionId => simp [dispatch_frame] at hd
  | HandshakeDone =>
    cases role with
    | Client =>
      simp only [dispatch_frame, Role.is_client, if_true, Option.some.injEq,
        Prod.mk.injEq] at hd
      rw [← hd.1]
      exact hs
    | Server =>
      simp only [dispatch_frame, Role.is_client, Bool.false_eq_true, if_false,
        Option.some.injEq, Prod.mk.injEq] at hd
      rw [← hd.1]
      exact hs
  | DataBlocked =>
    simp only [dispatch_frame, Option.some.injEq, Prod.mk.injEq] at hd
    rw [← hd.1]
    exact hs

theorem dispatch_loop_preserves_draining (role : Role) (fs : List ConnFrame) :
    ∀ c c1 : RawConnection, c.state = ConnectionState.Draining →
      dispatch_loop role c fs = some c1 → c1.state = ConnectionState.Draining := by
  induction fs with
  | nil =>
    intro c c1 hs hl
    simp only [dispatch_loop, Option.some.injEq] at hl
    rw [← hl]
    exact hs
  | cons f rest ih =>
    intro c c1 hs hl
    simp only [dispatch_loop] at hl
    cases hd : dispatch_frame role c f with
    | none => rw [hd] at hl; exact absurd hl (by simp)
    | some p =>
      rw [hd] at hl
      exact ih p.1 c1 (dispatch_frame_preserves_draining role c f p.1 p.2 hs hd) hl

/-- Claim C7: a Close connection-frame sets the state to Draining and
succeeds; and along the dispatch loop the Draining state is never left:
from any Draining connection, processing any frame sequence that does not
panic ends Draining. -/
theorem close_frame_drains_irreversibly (role : Role) (c : RawConnection)
    (e : Error) :
    (dispatch_frame role c (ConnFrame.Close e) =
      some ({ c with state := ConnectionState.Draining }, Except.ok ())) ∧
    (∀ (fs : List ConnFrame) (c1 : RawConnection),
      c.state = ConnectionState.Draining →
      dispatch_loop role c fs = some c1 →
      c1.state = ConnectionState.Draining) :=
  ⟨rfl, fun fs c1 hs hl => dispatch_loop_preserves_draining role fs c c1 hs hl⟩

/-- Witness for C7: a concrete Draining connection stays Draining across
a dispatched MaxData frame. -/
theorem close_frame_drains_irreversibly_witness :
    ({ new Role.Client with state := ConnectionState.Draining, flow_budget := 3 } :
      RawConnection).state = ConnectionState.Draining :=
  (close_frame_drains_irreversibly Role.Client
      { new Role.Client with state := ConnectionState.Draining }
      (Error.new_with_default_fty ErrorKind.ProtocolViolation hsDoneErrMsg)).2
    [ConnFrame.MaxData 3]
    { new Role.Client with state := ConnectionState.Draining, flow_budget := 3 }
    rfl rfl

/-- Claim C8 counterexample: on a connection whose Initial queue is
absent, a receive call for a never-seen Pathway does not create a path:
afterwards the Pathway is still not in the pathes mapping. -/
theorem recv_init_queue_absent_no_path :
    findPath 7 (({ new Role.Client with init_pkt_queue := none } :
      RawConnection).recv_init_pkt_via 9 0 7).pathes = none := rfl

/-- Claim C8 (amended): a receive call whose space queue is present — and
every 1-RTT receive call that returns — resolves or creates the Path via
get_path, so afterwards the Pathway is in the pathes mapping, including
for a first packet on a never-seen Pathway; when the space queue is
absent the call is a no-op and inserts nothing. -/
theorem recv_creates_path_when_queue_present (c : RawConnection)
    (pkt usc pw : Nat) :
    (c.init_pkt_queue.isSome = true →
      findPath pw (c.recv_init_pkt_via pkt usc pw).pathes ≠ none) ∧
    (c.hs_pkt_queue.isSome = true →
      findPath pw (c.recv_hs_pkt_via pkt usc pw).pathes ≠ none) ∧
    (c.zero_rtt_pkt_queue.isSome = true →
      findPath pw (c.recv_0rtt_pkt_via pkt usc pw).pathes ≠ none) ∧
    (∀ c1 : RawConnection, c.recv_1rtt_pkt_via pkt usc pw = some c1 →
      findPath pw c1.pathes ≠ none) ∧
    (c.init_pkt_queue = none → c.recv_init_pkt_via pkt usc pw = c) ∧
    (c.hs_pkt_queue = none → c.recv_hs_pkt_via pkt usc pw = c) ∧
    (c.zero_rtt_pkt_queue = none → c.recv_0rtt_pkt_via pkt usc pw = c) := by
  have hf := get_path_found c pw usc
  refine ⟨fun h => ?_, fun h => ?_, fun h => ?_, fun c1 h => ?_,
    fun h => ?_, fun h => ?_, fun h => ?_⟩
  · cases hq : c.init_pkt_queue with
    | none => rw [hq] at h; simp at h
    | some q => simp [RawConnection.recv_init_pkt_via, hq, hf]
  · cases hq : c.hs_pkt_queue with
    | none => rw [hq] at h; simp at h
    | some q => simp [RawConnection.recv_hs_pkt_via, hq, hf]
  · cases hq : c.zero_rtt_pkt_queue with
    | none => rw [hq] at h; simp at h
    | some q => simp [RawConnection.recv_0rtt_pkt_via, hq, hf]
  · simp only [RawConnection.recv_1rtt_pkt_via] at h
    by_cases hb : ((c.get_path pw usc).2.one_rtt_pkt_queue.send
        (pkt, (c.get_path pw usc).1)).2
    · rw [if_pos hb] at h
      cases h
      simp [hf]
    · rw [if_neg hb] at h
      cases h
  · simp [RawConnection.recv_init_pkt_via, h]
  · simp [RawConnection.recv_hs_pkt_via, h]
  · simp [RawConnection.recv_0rtt_pkt_via, h]

/-- Witness for C8 (amended) at a fresh connection and a never-seen
Pathway. -/
theorem recv_creates_path_when_queue_present_witness :
    findPath 7 ((new Role.Client).recv_init_pkt_via 9 0 7).pathes ≠ none :=
  (recv_creates_path_when_queue_present (new Role.Client) 9 0 7).1 rfl

/-- Claim C10: no receive operation reads or writes the connection-state
field: running any receive call on a connection with its state overridden
(Active as well as Draining) yields exactly the result of the original
call with the same override — paths created and packets enqueued or
dropped identically. -/
theorem recv_independent_of_connection_state (c : RawConnection)
    (s : ConnectionState) (pkt usc pw : Nat) :
    (({ c with state := s } : RawConnection).recv_init_pkt_via pkt usc pw =
      { c.recv_init_pkt_via pkt usc pw with state := s }) ∧
    (({ c with state := s } : RawConnection).recv_hs_pkt_via pkt usc pw =
      { c.recv_hs_pkt_via pkt usc pw with state := s }) ∧
    (({ c with state := s } : RawConnection).recv_0rtt_pkt_via pkt usc pw =
      { c.recv_0rtt_pkt_via pkt usc pw with state := s }) ∧
    (({ c with state := s } : RawConnection).recv_1rtt_pkt_via pkt usc pw =
      (c.recv_1rtt_pkt_via pkt usc pw).map (fun c1 => { c1 with state := s })) := by
  obtain ⟨cpathes, cnext, ciq, chq0, czq, coq, cik, chk, czk, cao, clo, csp, cst, cfb⟩ := c
  obtain ⟨cl, its⟩ := coq
  refine ⟨?_, ?_, ?_, ?_⟩
  · cases ciq with
    | none => rfl
    | some q =>
      cases hf : findPath pw cpathes <;>
        simp [RawConnection.recv_init_pkt_via, RawConnection.get_path, hf]
  · cases chq0 with
    | none => rfl
    | some q =>
      cases hf : findPath pw cpathes <;>
        simp [RawConnection.recv_hs_pkt_via, RawConnection.get_path, hf]
  · cases czq with
    | none => rfl
    | some q =>
      cases hf : findPath pw cpathes <;>
        simp [RawConnection.recv_0rtt_pkt_via, RawConnection.get_path, hf]
  · cases cl <;> cases hf : findPath pw cpathes <;>
      simp [RawConnection.recv_1rtt_pkt_via, RawConnection.get_path,
        PacketQueue.send, hf]

/-- The invariant of the path map: every cached path was allocated below
the next allocation id, and distinct pathways hold paths of distinct
allocation ids. -/
def PathInv (c : RawConnection) : Prop :=
  (∀ p ∈ c.pathes, p.2.id < c.nextPathId) ∧
  (∀ p ∈ c.pathes, ∀ q ∈ c.pathes, p.2.id = q.2.id → p.1 = q.1)

instance (c : RawConnection) : Decidable (PathInv c) := by
  unfold PathInv
  infer_instance

@[simp]
theorem ArcPath.new_id (usc g a l i : Nat) : (ArcPath.new usc g a l i).id = i := rfl

/-- Claim C6: get_path is an idempotent lookup-or-insert. Two calls with
the same Pathway return the same path handle; after a call for one
Pathway, a call for a different Pathway returns a path of a different
allocation identity; a cached Pathway is returned without any change to
the connection; an unknown Pathway gets a freshly allocated path bound to
the given socket and the shared ack and loss observers, inserted into the
map; and the map invariant is preserved. -/
theorem get_path_idempotent_lookup_or_insert (c : RawConnection)
    (pw pw2 usc usc2 : Nat) (hinv : PathInv c) :
    (((c.get_path pw usc).2.get_path pw usc2).1 = (c.get_path pw usc).1) ∧
    (pw ≠ pw2 →
      ((c.get_path pw usc).2.get_path pw2 usc2).1.id ≠ (c.get_path pw usc).1.id) ∧
    (∀ p : ArcPath, findPath pw c.pathes = some p → c.get_path pw usc = (p, c)) ∧
    (findPath pw c.pathes = none →
      (c.get_path pw usc).2.pathes =
        c.pathes ++ [(pw, ArcPath.new usc 100 c.ack_observer c.loss_observer c.nextPathId)]) ∧
    PathInv (c.get_path pw usc).2 := by
  cases h1 : findPath pw c.pathes with
  | some p =>
    have e1 : c.get_path pw usc = (p, c) := by
      unfold RawConnection.get_path
      rw [h1]
    refine ⟨?_, ?_, ?_, ?_, ?_⟩
    · rw [e1]
      show (c.get_path pw usc2).1 = p
      unfold RawConnection.get_path
      rw [h1]
    · intro hne
      rw [e1]
      show (c.get_path pw2 usc2).1.id ≠ p.id
      cases h2 : findPath pw2 c.pathes with
      | some q =>
        have e2 : c.get_path pw2 usc2 = (q, c) := by
          unfold RawConnection.get_path
          rw [h2]
        rw [e2]
        intro hid
        exact hne (hinv.2 (pw, p) (findPath_mem pw c.pathes p h1)
          (pw2, q) (findPath_mem pw2 c.pathes q h2) hid.symm)
      | none =>
        have e2 : c.get_path pw2 usc2 =
            (ArcPath.new usc2 100 c.ack_observer c.loss_observer c.nextPathId,
             { c with
               pathes := c.pathes ++
                 [(pw2, ArcPath.new usc2 100 c.ack_observer c.loss_observer c.nextPathId)],
               nextPathId := c.nextPathId + 1 }) := by
          unfold RawConnection.get_path
          rw [h2]
        rw [e2]
        have hb : p.id < c.nextPathId :=
          hinv.1 (pw, p) (findPath_mem pw c.pathes p h1)
        simp only [ArcPath.new_id]
        omega
    · intro p2 hp2
      injection hp2 with h
      subst h
      exact e1
    · intro hnone
      simp at hnone
    · rw [e1]
      exact hinv
  | none =>
    have e1 : c.get_path pw usc =
        (ArcPath.new usc 100 c.ack_observer c.loss_observer c.nextPathId,
         { c with
           pathes := c.pathes ++
             [(pw, ArcPath.new usc 100 c.ack_observer c.loss_observer c.nextPathId)],
           nextPathId := c.nextPathId + 1 }) := by
      unfold RawConnection.get_path
      rw [h1]
    refine ⟨?_, ?_, ?_, ?_, ?_⟩
    · rw [e1]
      have h2 : findPath pw (c.pathes ++
          [(pw, ArcPath.new usc 100 c.ack_observer c.loss_observer c.nextPathId)]) =
          some (ArcPath.new usc 100 c.ack_observer c.loss_observer c.nextPathId) :=
        findPath_append_self pw c.pathes h1 _
      show (RawConnection.get_path _ pw usc2).1 = _
      unfold RawConnection.get_path
      rw [h2]
    · intro hne
      rw [e1]
      cases h2 : findPath pw2 (c.pathes ++
          [(pw, ArcPath.new usc 100 c.ack_observer c.loss_observer c.nextPathId)]) with
      | some q =>
        have e2 : RawConnection.get_path
            { c with
              pathes := c.pathes ++
                [(pw, ArcPath.new usc 100 c.ack_observer c.loss_observer c.nextPathId)],
              nextPathId := c.nextPathId + 1 } pw2 usc2 =
            (q, { c with
              pathes := c.pathes ++
                [(pw, ArcPath.new usc 100 c.ack_observer c.loss_observer c.nextPathId)],
              nextPathId := c.nextPathId + 1 }) := by
          unfold RawConnection.get_path
          rw [h2]
        rw [e2]
        have hmem := findPath_mem pw2 _ q h2
        rcases List.mem_append.1 hmem with hin | hin
        · have hb := hinv.1 (pw2, q) hin
          simp only [ArcPath.new_id]
          simp only at hb
          omega
        · simp only [List.mem_singleton, Prod.mk.injEq] at hin
          exact absurd hin.1 (Ne.symm hne)
      | none =>
        have e2 : RawConnection.get_path
            { c with
              pathes := c.pathes ++
                [(pw, ArcPath.new usc 100 c.ack_observer c.loss_observer c.nextPathId)],
              nextPathId := c.nextPathId + 1 } pw2 usc2 =
            (ArcPath.new usc2 100 c.ack_observer c.loss_observer (c.nextPathId + 1),
             { c with
               pathes := (c.pathes ++
                 [(pw, ArcPath.new usc 100 c.ack_observer c.loss_observer c.nextPathId)]) ++
                 [(pw2, ArcPath.new usc2 100 c.ack_observer c.loss_observer (c.nextPathId + 1))],
               nextPathId := c.nextPathId + 1 + 1 }) := by
          unfold RawConnection.get_path
          rw [h2]
        rw [e2]
        simp only [ArcPath.new_id]
        omega
    · intro p2 hp2
      simp at hp2
    · intro _
      rw [e1]
    · rw [e1]
      constructor
      · intro x hx
        rcases List.mem_append.1 hx with hin | hin
        · have hb := hinv.1 x hin
          simp only
          omega
        · simp only [List.mem_singleton] at hin
          subst hin
          simp only [ArcPath.new_id]
          omega
      · intro x hx y hy hid
        rcases List.mem_append.1 hx with hx1 | hx1 <;>
          rcases List.mem_append.1 hy with hy1 | hy1
        · exact hinv.2 x hx1 y hy1 hid
        · simp only [List.mem_singleton] at hy1
          subst hy1
          simp only [ArcPath.new_id] at hid
          have hb := hinv.1 x hx1
          omega
        · simp only [List.mem_singleton] at hx1
          subst hx1
          simp only [ArcPath.new_id] at hid
          have hb := hinv.1 y hy1
          omega
        · simp only [List.mem_singleton] at hx1
          simp only [List.mem_singleton] at hy1
          subst hx1
          subst hy1
          rfl

/-- Witness for C6: on a fresh connection, the paths for two different
pathways have different allocation ids. -/
theorem get_path_idempotent_lookup_or_insert_witness :
    (((new Role.Client).get_path 0 5).2.get_path 1 5).1.id ≠
      ((new Role.Client).get_path 0 5).1.id :=
  ((get_path_idempotent_lookup_or_insert (new Role.Client) 0 1 5 5
    (by decide)).2.1) (by decide)

end GmQuic
